import Mathlib

/-!
# Verification of the tracking-poc event dispatch server

Shallow embedding of the event normalization and multi-destination dispatch
engine of the `tracking-poc-axmit` repository: the PII hasher, the three
provider adapters (GA4 / Meta / TikTok), the consent-gated dispatch of
`src/server.js`, the `trackServerEvent` helper of `src/server.cjs`, and the
ingress enrichment performed by the `/api/track` handlers.

JavaScript strings are modelled as Lean `String`/`List Char`; absent values
(`undefined`/`null`) as `Option`; JS truthiness of strings explicitly; the
SHA-256 digest used by `hashPII` is implemented concretely over byte lists so
that digests evaluate on concrete inputs.
-/

/- ### JavaScript string primitives -/

/-- The whitespace characters stripped by `String.prototype.trim` that are
expressible as single scalar values relevant here (space, tab, line feed,
carriage return, vertical tab, form feed), by code point. -/
def jsIsWhitespace (c : Char) : Bool :=
  c.toNat == 32 || c.toNat == 9 || c.toNat == 10 || c.toNat == 13 ||
    c.toNat == 11 || c.toNat == 12

/-- `String.prototype.toLowerCase` on this codebase's inputs: ASCII letter
lowering, all other characters unchanged. -/
def jsToLower (s : List Char) : List Char := s.map Char.toLower

/-- `String.prototype.trim`: strip leading and trailing whitespace. -/
def jsTrim (s : List Char) : List Char :=
  ((s.dropWhile jsIsWhitespace).reverse.dropWhile jsIsWhitespace).reverse

/-- JS falsiness of a possibly-absent string: `!v` holds for `undefined`/`null`
(modelled as `none`) and for the empty string. -/
def jsFalsy : Option String → Bool
  | none => true
  | some s => s == ""

/-- JS `a || b` where `a` is a possibly-absent string and `b` a string
constant. -/
def jsOrD (a : Option String) (b : String) : String :=
  match a with
  | none => b
  | some s => if s == "" then b else s

/-- JS `a || b` on two possibly-absent strings. -/
def jsOrO (a b : Option String) : Option String :=
  match a with
  | none => b
  | some s => if s == "" then b else some s

/-- UTF-8 encoding of one character (the default encoding of Node's
`crypto.Hash.update` on strings), as byte values. -/
def utf8EncodeChar (c : Char) : List Nat :=
  let n := c.toNat
  if n < 0x80 then [n]
  else if n < 0x800 then [0xc0 + n / 0x40, 0x80 + n % 0x40]
  else if n < 0x10000 then
    [0xe0 + n / 0x1000, 0x80 + n / 0x40 % 0x40, 0x80 + n % 0x40]
  else
    [0xf0 + n / 0x40000, 0x80 + n / 0x1000 % 0x40, 0x80 + n / 0x40 % 0x40,
      0x80 + n % 0x40]

/-- UTF-8 encoding of a character sequence. -/
def utf8Encode (s : List Char) : List Nat :=
  s.foldr (fun c acc => utf8EncodeChar c ++ acc) []

/- ### SHA-256 (`crypto.createHash('sha256')`), over byte lists -/

/-- 2^32: all SHA-256 word arithmetic is modulo this. -/
def sha2M : Nat := 4294967296

/-- The 64 SHA-256 round constants. -/
def sha2K : List Nat :=
  [1116352408, 1899447441, 3049323471, 3921009573, 961987163,
   1508970993, 2453635748, 2870763221, 3624381080, 310598401,
   607225278, 1426881987, 1925078388, 2162078206, 2614888103,
   3248222580, 3835390401, 4022224774, 264347078, 604807628,
   770255983, 1249150122, 1555081692, 1996064986, 2554220882,
   2821834349, 2952996808, 3210313671, 3336571891, 3584528711,
   113926993, 338241895, 666307205, 773529912, 1294757372,
   1396182291, 1695183700, 1986661051, 2177026350, 2456956037,
   2730485921, 2820302411, 3259730800, 3345764771, 3516065817,
   3600352804, 4094571909, 275423344, 430227734, 506948616,
   659060556, 883997877, 958139571, 1322822218, 1537002063,
   1747873779, 1955562222, 2024104815, 2227730452, 2361852424,
   2428436474, 2756734187, 3204031479, 3329325298]

/-- The SHA-256 initial hash state. -/
def sha2H0 : List Nat :=
  [1779033703, 3144134277, 1013904242, 2773480762,
   1359893119, 2600822924, 528734635, 1541459225]

/-- 32-bit right rotation. -/
def rotr32 (n x : Nat) : Nat := ((x >>> n) ||| (x <<< (32 - n))) % sha2M

def sha2S0 (x : Nat) : Nat := rotr32 2 x ^^^ rotr32 13 x ^^^ rotr32 22 x

def sha2S1 (x : Nat) : Nat := rotr32 6 x ^^^ rotr32 11 x ^^^ rotr32 25 x

def sha2s0 (x : Nat) : Nat := rotr32 7 x ^^^ rotr32 18 x ^^^ (x >>> 3)

def sha2s1 (x : Nat) : Nat := rotr32 17 x ^^^ rotr32 19 x ^^^ (x >>> 10)

/-- SHA-256 padding: append `0x80`, zero bytes to 56 mod 64, then the bit
length as 8 big-endian bytes. -/
def sha2Pad (msg : List Nat) : List Nat :=
  let L := msg.length
  msg ++ [0x80] ++ List.replicate ((119 - L % 64) % 64) 0 ++
    (List.range 8).map (fun i => ((8 * L) >>> (8 * (7 - i))) % 256)

/-- Group bytes into big-endian 32-bit words. -/
def sha2Words : List Nat → List Nat
  | b0 :: b1 :: b2 :: b3 :: rest =>
      (b0 * 0x1000000 + b1 * 0x10000 + b2 * 0x100 + b3) :: sha2Words rest
  | _ => []

/-- Split a byte list into 64-byte blocks (fuel-driven structural recursion;
one unit of fuel per produced block, so `l.length` fuel always suffices). -/
def sha2BlocksAux : Nat → List Nat → List (List Nat)
  | 0, _ => []
  | _, [] => []
  | fuel + 1, l => l.take 64 :: sha2BlocksAux fuel (l.drop 64)

/-- Split a byte list into 64-byte blocks. -/
def sha2Blocks (l : List Nat) : List (List Nat) :=
  sha2BlocksAux l.length l

/-- Extend the 16 message words to the 64-entry message schedule. -/
def sha2Schedule (w16 : List Nat) : List Nat :=
  (List.range 48).foldl
    (fun w _ =>
      let i := w.length
      w ++ [(w.getD (i - 16) 0 + sha2s0 (w.getD (i - 15) 0) +
             w.getD (i - 7) 0 + sha2s1 (w.getD (i - 2) 0)) % sha2M])
    w16

/-- The eight SHA-256 working registers. -/
structure Sha2Regs where
  a : Nat
  b : Nat
  c : Nat
  d : Nat
  e : Nat
  f : Nat
  g : Nat
  h : Nat
deriving Repr, DecidableEq

/-- One SHA-256 compression round for a round constant / schedule word pair. -/
def sha2Round (r : Sha2Regs) (kw : Nat × Nat) : Sha2Regs :=
  let ch := (r.e &&& r.f) ^^^ ((4294967295 - r.e) &&& r.g)
  let maj := (r.a &&& r.b) ^^^ (r.a &&& r.c) ^^^ (r.b &&& r.c)
  let t1 := (r.h + sha2S1 r.e + ch + kw.1 + kw.2) % sha2M
  let t2 := (sha2S0 r.a + maj) % sha2M
  { a := (t1 + t2) % sha2M, b := r.a, c := r.b, d := r.c,
    e := (r.d + t1) % sha2M, f := r.e, g := r.f, h := r.g }

/-- Compress one 64-byte block into the running hash state. -/
def sha2Compress (hs : List Nat) (block : List Nat) : List Nat :=
  let w := sha2Schedule (sha2Words block)
  let init : Sha2Regs :=
    ⟨hs.getD 0 0, hs.getD 1 0, hs.getD 2 0, hs.getD 3 0,
     hs.getD 4 0, hs.getD 5 0, hs.getD 6 0, hs.getD 7 0⟩
  let r := (sha2K.zip w).foldl sha2Round init
  [(hs.getD 0 0 + r.a) % sha2M, (hs.getD 1 0 + r.b) % sha2M,
   (hs.getD 2 0 + r.c) % sha2M, (hs.getD 3 0 + r.d) % sha2M,
   (hs.getD 4 0 + r.e) % sha2M, (hs.getD 5 0 + r.f) % sha2M,
   (hs.getD 6 0 + r.g) % sha2M, (hs.getD 7 0 + r.h) % sha2M]

/-- SHA-256 digest of a byte list, as eight 32-bit words. -/
def sha2Digest (msg : List Nat) : List Nat :=
  (sha2Blocks (sha2Pad msg)).foldl sha2Compress sha2H0

/-- Big-endian bytes of a 32-bit word. -/
def wordBytes (w : Nat) : List Nat :=
  [w / 0x1000000 % 0x100, w / 0x10000 % 0x100, w / 0x100 % 0x100, w % 0x100]

/-- Lower-case hexadecimal digit. -/
def hexDigit (n : Nat) : Char :=
  if n < 10 then Char.ofNat (48 + n) else Char.ofNat (87 + n)

/-- Two hex characters of one byte. -/
def byteHex (b : Nat) : List Char := [hexDigit (b / 16 % 16), hexDigit (b % 16)]

/-- Hex string of a byte list (`digest('hex')`). -/
def hexString (bytes : List Nat) : String :=
  ⟨bytes.foldr (fun b acc => byteHex b ++ acc) []⟩

/-- SHA-256 hex digest of a byte list. -/
def sha256Hex (msg : List Nat) : String :=
  hexString ((sha2Digest msg).foldr (fun w acc => wordBytes w ++ acc) [])

/- ### The PII hasher -/

/-- `hashPII` from `src/server.cjs` lines 17-20 (textually identical in
`src/server.js` and `src/server-simple.cjs`): falsy input (absent or empty
string) returns `undefined`; otherwise the SHA-256 hex digest of
`value.toLowerCase().trim()`. -/
def hashPII : Option String → Option String
  | none => none
  | some s =>
    if s == "" then none
    else some (sha256Hex (utf8Encode (jsTrim (jsToLower s.data))))

/- ### Data model -/

/-- A product line (`TrackingItem`, `src/unnamed/part_007` lines 10-19). -/
structure TrackingItem where
  id : String
  name : Option String := none
  category : Option String := none
  brand : Option String := none
  variant : Option String := none
  price : Int
  quantity : Nat
deriving Repr, DecidableEq

/-- The canonical event shape the server handlers consume (the fields the
adapters read). -/
structure CanonicalEvent where
  event_name : String
  event_id : String
  currency : String
  value : Int
  items : List TrackingItem
  transaction_id : Option String := none
deriving Repr, DecidableEq

/-- `UserData` as the adapters read it (`src/unnamed/part_007` lines 56-63
plus the `fbc`/`fbp` attribution cookies read by the Meta adapter). -/
structure UserContext where
  client_id : Option String := none
  user_id : Option String := none
  email : Option String := none
  phone : Option String := none
  ip_address : Option String := none
  user_agent : Option String := none
  fbc : Option String := none
  fbp : Option String := none
deriving Repr, DecidableEq

/-- The credential environment variables the adapters read. -/
structure Env where
  gaMeasurementId : Option String := none      -- VITE_GA_MEASUREMENT_ID
  gaApiSecret : Option String := none          -- VITE_GA_API_SECRET
  metaPixelId : Option String := none          -- VITE_META_PIXEL_ID
  metaAccessToken : Option String := none      -- VITE_META_ACCESS_TOKEN
  tiktokPixelId : Option String := none        -- VITE_TIKTOK_PIXEL_ID
  tiktokAccessToken : Option String := none    -- VITE_TIKTOK_ACCESS_TOKEN
  metaTestEventCode : Option String := none    -- META_TEST_EVENT_CODE
deriving Repr, DecidableEq

/-- The fields of a parsed Meta JSON response body that the code reads. -/
structure MetaBody where
  events_received : Option Nat := none
  error : Option String := none
deriving Repr, DecidableEq

/-- The fields of a parsed TikTok JSON response body that the code reads:
`code` is absent (`undefined`) when the body has no such key. -/
structure TikTokBody where
  code : Option Int := none
  message : Option String := none
deriving Repr, DecidableEq

/-- Result of `await response.json()`: the parse either throws (with the
thrown message) or yields a body. -/
inductive Parsed (β : Type) where
  | err (msg : String)
  | ok (body : β)
deriving Repr, DecidableEq

/-- Outcome of a `fetch` whose body is never parsed as JSON (the GA4
adapter): the promise rejects with a message, or a response arrives with a
status and text body (the text is read only by `src/server.js`). -/
inductive GaFetch where
  | fail (msg : String)
  | resp (status : Nat) (text : String)
deriving Repr, DecidableEq

/-- Outcome of a `fetch` followed by `await response.json()` (Meta and TikTok
adapters). -/
inductive JsonFetch (β : Type) where
  | fail (msg : String)
  | resp (status : Nat) (body : Parsed β)
deriving Repr, DecidableEq

/-- WHATWG fetch `Response.ok`: status in the inclusive range 200-299. -/
def respOk (status : Nat) : Bool := 200 ≤ status && status ≤ 299

/-- Diagnostic stored by the `src/server.js` adapters on success
(`{ success: true, result }`). -/
inductive Diag where
  | metaRes (b : MetaBody)
  | tiktokRes (b : TikTokBody)
deriving Repr, DecidableEq

/-- The uniform per-destination result object. A field is `none` when the
corresponding key is absent or `undefined`. -/
structure DispatchResult where
  success : Bool
  error : Option String := none
  reason : Option String := none
  events_received : Option Nat := none
  result : Option Diag := none
deriving Repr, DecidableEq

/- ### Destination payloads (the Normalizer) -/

/-- The `eventNameMap` object literal shared by the Meta and TikTok adapters
(`src/server.cjs` lines 80-84 and 148-152, `src/server.js` lines 87-91 and
160-164): an unmapped key reads as `undefined`. -/
def eventNameMap : String → Option String
  | "add_to_cart" => some "AddToCart"
  | "begin_checkout" => some "InitiateCheckout"
  | "purchase" => some "Purchase"
  | _ => none

/-- Per-platform event names (`src/unnamed/part_007` lines 73-89,
`EVENT_NAME_MAPPING`). -/
structure PlatformEventNames where
  ga4 : String
  meta : String
  tiktok : String
deriving Repr, DecidableEq

/-- `EVENT_NAME_MAPPING` from the TypeScript types module
(`src/unnamed/part_007` lines 73-89). -/
def EVENT_NAME_MAPPING : String → Option PlatformEventNames
  | "add_to_cart" =>
      some { ga4 := "add_to_cart", meta := "AddToCart", tiktok := "AddToCart" }
  | "begin_checkout" =>
      some { ga4 := "begin_checkout", meta := "InitiateCheckout",
             tiktok := "InitiateCheckout" }
  | "purchase" =>
      some { ga4 := "purchase", meta := "Purchase", tiktok := "Purchase" }
  | _ => none

/-- The GA4 event `params` object. -/
structure Ga4EventParams where
  currency : String
  value : Int
  items : List TrackingItem
  transaction_id : Option String
  event_id : String
  engagement_time_msec : Nat
deriving Repr, DecidableEq

/-- The GA4 Measurement Protocol payload (`client_id`/`user_id` plus a single
event). -/
structure Ga4Payload where
  client_id : Option String
  user_id : Option String
  name : String
  params : Ga4EventParams
deriving Repr, DecidableEq

/-- The payload built by `sendToGA4` (`src/server.cjs` lines 32-46; the same
construction appears in `src/server.js` and `src/server-simple.cjs`): the
event name is the canonical `event_name`, passed through untranslated. -/
def ga4Payload (event : CanonicalEvent) (userData : UserContext) : Ga4Payload :=
  { client_id := userData.client_id
    user_id := userData.user_id
    name := event.event_name
    params :=
      { currency := event.currency
        value := event.value
        items := event.items
        transaction_id := event.transaction_id
        event_id := event.event_id
        engagement_time_msec := 100 } }

/-- One element of the Meta `custom_data.contents` array. -/
structure MetaContent where
  id : String
  quantity : Nat
  item_price : Int
deriving Repr, DecidableEq

/-- The Meta `user_data` identification sub-structure. -/
structure MetaUserData where
  em : Option String
  ph : Option String
  client_ip_address : Option String
  client_user_agent : Option String
  fbc : Option String
  fbp : Option String
deriving Repr, DecidableEq

/-- The Meta Conversions API payload (the single `data[0]` element plus the
top-level `test_event_code` set only by `src/server.js`). -/
structure MetaPayload where
  event_name : Option String
  event_time : Nat
  event_id : String
  event_source_url : String
  action_source : String
  user_data : MetaUserData
  custom_data_currency : String
  custom_data_value : Int
  contents : List MetaContent
  content_type : String
  test_event_code : Option String := none
deriving Repr, DecidableEq

/-- Payload built by `sendToMeta` in `src/server.cjs` lines 86-112 (identical
in `src/server-simple.cjs`): the event-name lookup result is used directly, so
an unmapped `event_name` leaves the field `undefined`. -/
def metaPayloadCjs (event : CanonicalEvent) (userData : UserContext)
    (nowMs : Nat) : MetaPayload :=
  { event_name := eventNameMap event.event_name
    event_time := nowMs / 1000
    event_id := event.event_id
    event_source_url := "https://example.com"
    action_source := "website"
    user_data :=
      { em := hashPII userData.email
        ph := hashPII userData.phone
        client_ip_address := userData.ip_address
        client_user_agent := userData.user_agent
        fbc := userData.fbc
        fbp := userData.fbp }
    custom_data_currency := event.currency
    custom_data_value := event.value
    contents := event.items.map (fun item =>
      { id := item.id, quantity := item.quantity, item_price := item.price })
    content_type := "product" }

/-- Payload built by `sendToMeta` in `src/server.js` lines 93-120: the
event-name lookup falls back to the raw name (`|| event.event_name`), the
IP/user-agent fields get literal defaults, and `test_event_code` is copied
from the environment. -/
def metaPayloadJs (env : Env) (event : CanonicalEvent) (userData : UserContext)
    (nowMs : Nat) : MetaPayload :=
  { event_name := some (jsOrD (eventNameMap event.event_name) event.event_name)
    event_time := nowMs / 1000
    event_id := event.event_id
    event_source_url := "https://example.com"
    action_source := "website"
    user_data :=
      { em := hashPII userData.email
        ph := hashPII userData.phone
        client_ip_address := some (jsOrD userData.ip_address "127.0.0.1")
        client_user_agent := some (jsOrD userData.user_agent "Mozilla/5.0")
        fbc := userData.fbc
        fbp := userData.fbp }
    custom_data_currency := event.currency
    custom_data_value := event.value
    contents := event.items.map (fun item =>
      { id := item.id, quantity := item.quantity, item_price := item.price })
    content_type := "product"
    test_event_code := env.metaTestEventCode }

/-- One element of the TikTok `properties.contents` array. -/
structure TikTokContent where
  content_id : String
  content_name : Option String
  content_category : Option String
  quantity : Nat
  price : Int
deriving Repr, DecidableEq

/-- The TikTok `context.user` identification sub-structure, attached only when
email or phone is present. -/
structure TikTokUser where
  email : Option String
  phone_number : Option String
  external_id : Option String
deriving Repr, DecidableEq

/-- The TikTok `context.page` sub-structure. -/
structure TikTokPage where
  url : String
  referrer : String
deriving Repr, DecidableEq

/-- The TikTok `context` sub-structure. -/
structure TikTokContext where
  user_agent : Option String
  ip : Option String
  page : TikTokPage
  user : Option TikTokUser
deriving Repr, DecidableEq

/-- The TikTok Events API payload. -/
structure TikTokPayload where
  pixel_code : String
  event : Option String
  event_id : String
  timestamp : String
  context : TikTokContext
  properties_currency : String
  properties_value : Int
  contents : List TikTokContent
  content_type : String
deriving Repr, DecidableEq

/-- Payload built by `sendToTikTok` in `src/server.cjs` lines 154-187
(identical in `src/server-simple.cjs`): `context.user` is attached only under
`if (userData.email || userData.phone)`, and then carries the hashed values. -/
def tiktokPayloadCjs (pixelCode : String) (event : CanonicalEvent)
    (userData : UserContext) (nowIso : String) : TikTokPayload :=
  { pixel_code := pixelCode
    event := eventNameMap event.event_name
    event_id := event.event_id
    timestamp := nowIso
    context :=
      { user_agent := userData.user_agent
        ip := userData.ip_address
        page := { url := "https://example.com", referrer := "" }
        user :=
          if !jsFalsy userData.email || !jsFalsy userData.phone then
            some { email := hashPII userData.email
                   phone_number := hashPII userData.phone
                   external_id := userData.user_id }
          else none }
    properties_currency := event.currency
    properties_value := event.value
    contents := event.items.map (fun item =>
      { content_id := item.id
        content_name := item.name
        content_category := item.category
        quantity := item.quantity
        price := item.price })
    content_type := "product" }

/-- Payload built by `sendToTikTok` in `src/server.js` lines 166-200: as the
cjs one, but the event-name lookup falls back to the raw name and the
user-agent/IP context fields get literal defaults. -/
def tiktokPayloadJs (pixelCode : String) (event : CanonicalEvent)
    (userData : UserContext) (nowIso : String) : TikTokPayload :=
  { tiktokPayloadCjs pixelCode event userData nowIso with
      event := some (jsOrD (eventNameMap event.event_name) event.event_name)
      context :=
        { user_agent := some (jsOrD userData.user_agent "Mozilla/5.0")
          ip := some (jsOrD userData.ip_address "127.0.0.1")
          page := { url := "https://example.com", referrer := "" }
          user :=
            if !jsFalsy userData.email || !jsFalsy userData.phone then
              some { email := hashPII userData.email
                     phone_number := hashPII userData.phone
                     external_id := userData.user_id }
            else none } }

/- ### Provider adapters -/

/-- What one adapter invocation did: its returned result object, the number of
outbound HTTP calls it issued, and the JSON body it sent when it did. -/
structure AdapterCall (π : Type) where
  result : DispatchResult
  calls : Nat
  sent : Option π
deriving Repr, DecidableEq

/-- `sendToGA4` (`src/server.cjs` lines 23-68, identically in
`src/server-simple.cjs`), as a function of the environment, the outcome its
single `fetch` would have, and the inputs. Missing (falsy) credentials
short-circuit before any network I/O; otherwise success is decided solely by
`response.status === 204`, a non-204 status reports `Status <n>`, and a fetch
rejection is caught into the error field. -/
def sendToGA4 (env : Env) (f : GaFetch) (event : CanonicalEvent)
    (userData : UserContext) : AdapterCall Ga4Payload :=
  if jsFalsy env.gaMeasurementId || jsFalsy env.gaApiSecret then
    { result := { success := false, error := some "Missing GA4 credentials" }
      calls := 0, sent := none }
  else
    let payload := ga4Payload event userData
    match f with
    | .fail msg =>
        { result := { success := false, error := some msg }
          calls := 1, sent := some payload }
    | .resp status _ =>
        if status == 204 then
          { result := { success := true }, calls := 1, sent := some payload }
        else
          { result := { success := false
                        error := some ("Status " ++ toString status) }
            calls := 1, sent := some payload }

/-- `sendToGA4` (`src/server.js` lines 23-73): as the cjs one except that on a
non-204 status the response text becomes the error. -/
def sendToGA4Js (env : Env) (f : GaFetch) (event : CanonicalEvent)
    (userData : UserContext) : AdapterCall Ga4Payload :=
  if jsFalsy env.gaMeasurementId || jsFalsy env.gaApiSecret then
    { result := { success := false, error := some "Missing GA4 credentials" }
      calls := 0, sent := none }
  else
    let payload := ga4Payload event userData
    match f with
    | .fail msg =>
        { result := { success := false, error := some msg }
          calls := 1, sent := some payload }
    | .resp status text =>
        if status == 204 then
          { result := { success := true }, calls := 1, sent := some payload }
        else
          { result := { success := false, error := some text }
            calls := 1, sent := some payload }

/-- `sendToMeta` (`src/server.cjs` lines 71-136, identically in
`src/server-simple.cjs`): missing credentials short-circuit with no call;
otherwise one `fetch`, then `await response.json()` (a parse failure throws
into the catch), then `response.ok` alone decides success; on success
`events_received` is copied from the body, on provider failure `result.error`
becomes the error. -/
def sendToMeta (env : Env) (f : JsonFetch MetaBody) (event : CanonicalEvent)
    (userData : UserContext) (nowMs : Nat) : AdapterCall MetaPayload :=
  if jsFalsy env.metaPixelId || jsFalsy env.metaAccessToken then
    { result := { success := false, error := some "Missing Meta credentials" }
      calls := 0, sent := none }
  else
    let payload := metaPayloadCjs event userData nowMs
    match f with
    | .fail msg =>
        { result := { success := false, error := some msg }
          calls := 1, sent := some payload }
    | .resp _ (.err msg) =>
        { result := { success := false, error := some msg }
          calls := 1, sent := some payload }
    | .resp status (.ok body) =>
        if respOk status then
          { result := { success := true
                        events_received := body.events_received }
            calls := 1, sent := some payload }
        else
          { result := { success := false, error := body.error }
            calls := 1, sent := some payload }

/-- `sendToMeta` (`src/server.js` lines 76-146): as the cjs one, with the js
payload and with the whole parsed body stored as the success diagnostic
(`{ success: true, result }`). -/
def sendToMetaJs (env : Env) (f : JsonFetch MetaBody) (event : CanonicalEvent)
    (userData : UserContext) (nowMs : Nat) : AdapterCall MetaPayload :=
  if jsFalsy env.metaPixelId || jsFalsy env.metaAccessToken then
    { result := { success := false, error := some "Missing Meta credentials" }
      calls := 0, sent := none }
  else
    let payload := metaPayloadJs env event userData nowMs
    match f with
    | .fail msg =>
        { result := { success := false, error := some msg }
          calls := 1, sent := some payload }
    | .resp _ (.err msg) =>
        { result := { success := false, error := some msg }
          calls := 1, sent := some payload }
    | .resp status (.ok body) =>
        if respOk status then
          { result := { success := true, result := some (.metaRes body) }
            calls := 1, sent := some payload }
        else
          { result := { success := false, error := body.error }
            calls := 1, sent := some payload }

/-- `sendToTikTok` (`src/server.cjs` lines 139-212, identically in
`src/server-simple.cjs`): missing credentials short-circuit with no call;
otherwise one `fetch` then `await response.json()`, and success requires both
`response.ok` and `result.code === 0`; any other parsed outcome reports
`result.message`. -/
def sendToTikTok (env : Env) (f : JsonFetch TikTokBody)
    (event : CanonicalEvent) (userData : UserContext) (nowIso : String) :
    AdapterCall TikTokPayload :=
  if jsFalsy env.tiktokPixelId || jsFalsy env.tiktokAccessToken then
    { result := { success := false, error := some "Missing TikTok credentials" }
      calls := 0, sent := none }
  else
    let payload :=
      tiktokPayloadCjs (env.tiktokPixelId.getD "") event userData nowIso
    match f with
    | .fail msg =>
        { result := { success := false, error := some msg }
          calls := 1, sent := some payload }
    | .resp _ (.err msg) =>
        { result := { success := false, error := some msg }
          calls := 1, sent := some payload }
    | .resp status (.ok body) =>
        if respOk status && body.code == some 0 then
          { result := { success := true }, calls := 1, sent := some payload }
        else
          { result := { success := false, error := body.message }
            calls := 1, sent := some payload }

/-- `sendToTikTok` (`src/server.js` lines 149-227): as the cjs one, with the
js payload and the parsed body stored as the success diagnostic. -/
def sendToTikTokJs (env : Env) (f : JsonFetch TikTokBody)
    (event : CanonicalEvent) (userData : UserContext) (nowIso : String) :
    AdapterCall TikTokPayload :=
  if jsFalsy env.tiktokPixelId || jsFalsy env.tiktokAccessToken then
    { result := { success := false, error := some "Missing TikTok credentials" }
      calls := 0, sent := none }
  else
    let payload :=
      tiktokPayloadJs (env.tiktokPixelId.getD "") event userData nowIso
    match f with
    | .fail msg =>
        { result := { success := false, error := some msg }
          calls := 1, sent := some payload }
    | .resp _ (.err msg) =>
        { result := { success := false, error := some msg }
          calls := 1, sent := some payload }
    | .resp status (.ok body) =>
        if respOk status && body.code == some 0 then
          { result := { success := true, result := some (.tiktokRes body) }
            calls := 1, sent := some payload }
        else
          { result := { success := false, error := body.message }
            calls := 1, sent := some payload }

/- ### Aggregation and dispatch -/

/-- A promise outcome as `Promise.allSettled` reports it. -/
inductive Settled where
  | fulfilled (r : DispatchResult)
  | rejected (reason : String)
deriving Repr, DecidableEq

/-- Entry aggregation, `src/server.js` lines 279-281:
`s.status === 'fulfilled' ? s.value : { success: false, error: s.reason }`.
(`src/server.cjs` lines 234-236 spells it `s.value || { … }`, which agrees
because the adapters only ever fulfil with an object, and objects are
truthy.) -/
def settleEntry : Settled → DispatchResult
  | .fulfilled r => r
  | .rejected reason => { success := false, error := some reason }

/-- The three destinations. -/
inductive Destination where
  | ga4
  | meta
  | tiktok
deriving Repr, DecidableEq

/-- The aggregated response object with one key per destination. -/
structure DispatchResponse where
  ga4 : DispatchResult
  meta : DispatchResult
  tiktok : DispatchResult
deriving Repr, DecidableEq

/-- Aggregation of the three settled outcomes into the response object
(`src/server.js` lines 278-282 and the corresponding lines of the cjs
handlers). -/
def aggregate (g m t : Settled) : DispatchResponse :=
  { ga4 := settleEntry g, meta := settleEntry m, tiktok := settleEntry t }

/-- The response's destination-keyed entries, in the order the JSON object
lists them. -/
def responseEntries (r : DispatchResponse) :
    List (Destination × DispatchResult) :=
  [(.ga4, r.ga4), (.meta, r.meta), (.tiktok, r.tiktok)]

/-- The two consent fields the server reads (`ConsentState`,
`src/unnamed/part_007` lines 92-97, restricted to the keys the handler
uses). -/
structure ConsentState where
  ad_storage : String
  analytics_storage : String
deriving Repr, DecidableEq

/-- What the consent-gated dispatch did for one destination: whether the
adapter function was invoked at all, how many outbound HTTP calls were
issued for the destination, and the settled response entry. -/
structure DestDispatch where
  invoked : Bool
  calls : Nat
  entry : DispatchResult
deriving Repr, DecidableEq

/-- `consent?.analytics_storage === 'granted'` (`src/server.js` line 246). -/
def hasAnalyticsConsent (consent : Option ConsentState) : Bool :=
  match consent with
  | some c => c.analytics_storage == "granted"
  | none => false

/-- `consent?.ad_storage === 'granted'` (`src/server.js` line 247). -/
def hasAdConsent (consent : Option ConsentState) : Bool :=
  match consent with
  | some c => c.ad_storage == "granted"
  | none => false

/-- The consent-gated fan-out of the `/api/track` handler in `src/server.js`
lines 245-282: GA4 runs only under `consent?.analytics_storage === 'granted'`,
Meta and TikTok only under `consent?.ad_storage === 'granted'`; a gated-off
destination contributes an already-resolved `{ success: false, reason: … }`
in place of the adapter call, and all three settled outcomes are aggregated. -/
def dispatchJs (consent : Option ConsentState) (env : Env) (gf : GaFetch)
    (mf : JsonFetch MetaBody) (tf : JsonFetch TikTokBody)
    (event : CanonicalEvent) (user : UserContext) (nowMs : Nat)
    (nowIso : String) : DestDispatch × DestDispatch × DestDispatch :=
  let g :=
    if hasAnalyticsConsent consent then
      let call := sendToGA4Js env gf event user
      { invoked := true, calls := call.calls
        entry := settleEntry (.fulfilled call.result) }
    else
      { invoked := false, calls := 0
        entry := settleEntry (.fulfilled
          { success := false, reason := some "No analytics consent" }) }
  let m :=
    if hasAdConsent consent then
      let call := sendToMetaJs env mf event user nowMs
      { invoked := true, calls := call.calls
        entry := settleEntry (.fulfilled call.result) }
    else
      { invoked := false, calls := 0
        entry := settleEntry (.fulfilled
          { success := false, reason := some "No ad consent" }) }
  let t :=
    if hasAdConsent consent then
      let call := sendToTikTokJs env tf event user nowIso
      { invoked := true, calls := call.calls
        entry := settleEntry (.fulfilled call.result) }
    else
      { invoked := false, calls := 0
        entry := settleEntry (.fulfilled
          { success := false, reason := some "No ad consent" }) }
  (g, m, t)

/- ### Ingress enrichment and the server-route dispatch helper -/

/-- The transport-layer facts the handlers read from the Express request. -/
structure ReqInfo where
  xForwardedFor : Option String := none    -- req.headers['x-forwarded-for']
  remoteAddress : Option String := none    -- req.connection.remoteAddress
  userAgentHeader : Option String := none  -- req.headers['user-agent']
deriving Repr, DecidableEq

/-- The IP expression shared by every handler:
`req.headers['x-forwarded-for'] || req.connection.remoteAddress || '127.0.0.1'`. -/
def serverIp (req : ReqInfo) : String :=
  jsOrD (jsOrO req.xForwardedFor req.remoteAddress) "127.0.0.1"

/-- The `/api/track` enrichment (`src/server.js` lines 234-235; the same
single assignment appears in `src/server.cjs` line 255 and
`src/server-simple.cjs`): only `user.ip_address` is overwritten. -/
def enrichTrack (user : UserContext) (req : ReqInfo) : UserContext :=
  { user with ip_address := some (serverIp req) }

/-- The enrichment inside `trackServerEvent` (`src/server.cjs` lines 217-221):
both `ip_address` and `user_agent` are overwritten with transport values. -/
def enrichServerEvent (userData : UserContext) (req : ReqInfo) : UserContext :=
  { userData with
      ip_address := some (serverIp req)
      user_agent := some (jsOrD req.userAgentHeader "Unknown") }

/-- The response of `trackServerEvent`, which repeats the event id alongside
the three destination entries. -/
structure TrackResponse where
  event_id : String
  ga4 : DispatchResult
  meta : DispatchResult
  tiktok : DispatchResult
deriving Repr, DecidableEq

/-- `trackServerEvent` (`src/server.cjs` lines 215-238): enrich the user from
the request, fan out to the three cjs adapters unconditionally, settle all
three, and aggregate; the second component is the total number of outbound
HTTP calls issued. -/
def trackServerEvent (env : Env) (gf : GaFetch) (mf : JsonFetch MetaBody)
    (tf : JsonFetch TikTokBody) (event : CanonicalEvent)
    (userData : UserContext) (req : ReqInfo) (nowMs : Nat) (nowIso : String) :
    TrackResponse × Nat :=
  let enrichedUser := enrichServerEvent userData req
  let g := sendToGA4 env gf event enrichedUser
  let m := sendToMeta env mf event enrichedUser nowMs
  let t := sendToTikTok env tf event enrichedUser nowIso
  ({ event_id := event.event_id
     ga4 := settleEntry (.fulfilled g.result)
     meta := settleEntry (.fulfilled m.result)
     tiktok := settleEntry (.fulfilled t.result) },
   g.calls + m.calls + t.calls)

/- ### Sample inputs for concrete evaluations -/

/-- The add-to-cart example event of spec §8 (integer value variant). -/
def sampleEvent : CanonicalEvent :=
  { event_name := "add_to_cart", event_id := "e1", currency := "PHP",
    value := 199,
    items := [{ id := "P1", name := some "Widget", price := 199,
                quantity := 1 }] }

/-- A `page_view` event: accepted by the cjs `/api/track` ingress but outside
the three-name translation table. -/
def pageViewEvent : CanonicalEvent :=
  { event_name := "page_view", event_id := "pv1", currency := "PHP",
    value := 0, items := [] }

/-- A sample caller-supplied user context. -/
def sampleUser : UserContext :=
  { client_id := some "c1", user_id := some "u1",
    email := some "Foo@Example.com", phone := some "09171234567" }

/-- A sample request: transport saw a forwarded IP and a user agent. -/
def sampleReq : ReqInfo :=
  { xForwardedFor := some "203.0.113.7", remoteAddress := some "10.0.0.1",
    userAgentHeader := some "RealUA" }

/-- An environment with every credential configured. -/
def envFull : Env :=
  { gaMeasurementId := some "G-TEST", gaApiSecret := some "ga-secret",
    metaPixelId := some "meta-pixel", metaAccessToken := some "meta-token",
    tiktokPixelId := some "tiktok-code",
    tiktokAccessToken := some "tiktok-token" }

/-- A consent state granting advertising but denying analytics. -/
def sampleConsent : Option ConsentState :=
  some { ad_storage := "granted", analytics_storage := "denied" }

/-- FIPS 180-4 test vector: the SHA-256 digest of zero bytes. Validates the
digest model against the published value. -/
theorem sha256Hex_empty_vector :
    sha256Hex [] =
      "e3b0c44298fc1c149afbf4c8996fb92427ae41e4649b934ca495991b7852b855" := by
  decide

/-- FIPS 180-4 test vector: the SHA-256 digest of `"abc"`. -/
theorem sha256Hex_abc_vector :
    sha256Hex (utf8Encode "abc".data) =
      "ba7816bf8f01cfea414140de5dae2223b00361a396177a9cb410ff61f20015ad" := by
  decide

/- ### Helper lemmas: lower-casing commutes with trimming -/

theorem toNat_ofNat_valid (m : Nat) (h : m < 55296) :
    (Char.ofNat m).toNat = m := by
  unfold Char.ofNat
  rw [dif_pos (Or.inl h)]
  rfl

theorem toLower_shift_or_eq (c : Char) :
    Char.toLower c = c ∨
      (65 ≤ c.toNat ∧ c.toNat ≤ 90 ∧
        (Char.toLower c).toNat = c.toNat + 32) := by
  simp only [Char.toLower]
  by_cases hc : c.toNat ≥ 65 ∧ c.toNat ≤ 90
  · right
    refine ⟨hc.1, hc.2, ?_⟩
    rw [if_pos hc]
    exact toNat_ofNat_valid (c.toNat + 32) (by omega)
  · left
    rw [if_neg hc]

theorem jsIsWhitespace_toLower (c : Char) :
    jsIsWhitespace (Char.toLower c) = jsIsWhitespace c := by
  rcases toLower_shift_or_eq c with h | ⟨h1, h2, h3⟩
  · rw [h]
  · have l1 : jsIsWhitespace (Char.toLower c) = false := by
      simp only [jsIsWhitespace, Bool.or_eq_false_iff, beq_eq_false_iff_ne,
        ne_eq]
      omega
    have l2 : jsIsWhitespace c = false := by
      simp only [jsIsWhitespace, Bool.or_eq_false_iff, beq_eq_false_iff_ne,
        ne_eq]
      omega
    rw [l1, l2]

theorem jsTrim_jsToLower_comm (l : List Char) :
    jsTrim (jsToLower l) = jsToLower (jsTrim l) := by
  have hpf : (jsIsWhitespace ∘ Char.toLower) = jsIsWhitespace := by
    funext c; exact jsIsWhitespace_toLower c
  unfold jsTrim jsToLower
  rw [List.dropWhile_map, hpf, ← List.map_reverse, List.dropWhile_map, hpf,
    ← List.map_reverse]

theorem jsTrim_all_whitespace (l : List Char)
    (h : l.all jsIsWhitespace = true) : jsTrim l = [] := by
  have h1 : l.dropWhile jsIsWhitespace = [] := by
    rw [List.dropWhile_eq_nil_iff]
    intro x hx
    exact List.all_eq_true.mp h x hx
  simp [jsTrim, h1]

/- ### Helper lemmas: the digest is 64 hex characters -/

theorem sha2Compress_length (hs block : List Nat) :
    (sha2Compress hs block).length = 8 := rfl

theorem foldl_sha2Compress_length (bs : List (List Nat)) (hs : List Nat)
    (h : hs.length = 8) : (bs.foldl sha2Compress hs).length = 8 := by
  induction bs generalizing hs with
  | nil => exact h
  | cons b bs ih => exact ih _ (sha2Compress_length hs b)

theorem sha2Digest_length (msg : List Nat) : (sha2Digest msg).length = 8 :=
  foldl_sha2Compress_length _ _ rfl

theorem foldr_wordBytes_length (ws : List Nat) :
    (ws.foldr (fun w acc => wordBytes w ++ acc) []).length = 4 * ws.length := by
  induction ws with
  | nil => rfl
  | cons w ws ih =>
    simp only [List.foldr_cons, List.length_append, ih, List.length_cons]
    simp [wordBytes]
    omega

theorem foldr_byteHex_length (bs : List Nat) :
    (bs.foldr (fun b acc => byteHex b ++ acc) []).length = 2 * bs.length := by
  induction bs with
  | nil => rfl
  | cons b bs ih =>
    simp only [List.foldr_cons, List.length_append, ih, List.length_cons]
    simp [byteHex]
    omega

theorem sha256Hex_length (msg : List Nat) : (sha256Hex msg).length = 64 := by
  show (sha256Hex msg).data.length = 64
  simp only [sha256Hex, hexString]
  rw [foldr_byteHex_length, foldr_wordBytes_length, sha2Digest_length]

/- ### Claim theorems -/

/-- C1: every dispatch aggregates exactly one entry per destination (the
ga4/meta/tiktok keys, once each), and each destination's entry is the
settlement of its own adapter's promise outcome alone — replacing the other
two outcomes (including by rejections) leaves it untouched; in
`trackServerEvent` each entry is exactly what that destination's adapter
produced. -/
theorem dispatch_exactly_one_entry_per_destination_independent
    (g m t g' m' t' : Settled) (env : Env) (gf : GaFetch)
    (mf : JsonFetch MetaBody) (tf : JsonFetch TikTokBody)
    (e : CanonicalEvent) (u : UserContext) (req : ReqInfo) (nowMs : Nat)
    (nowIso : String) :
    ((responseEntries (aggregate g m t)).map Prod.fst =
      [Destination.ga4, Destination.meta, Destination.tiktok]) ∧
    (aggregate g m t).ga4 = settleEntry g ∧
    (aggregate g m t).meta = settleEntry m ∧
    (aggregate g m t).tiktok = settleEntry t ∧
    (aggregate g m' t').ga4 = (aggregate g m t).ga4 ∧
    (aggregate g' m t').meta = (aggregate g m t).meta ∧
    (aggregate g' m' t).tiktok = (aggregate g m t).tiktok ∧
    (trackServerEvent env gf mf tf e u req nowMs nowIso).1.ga4 =
      (sendToGA4 env gf e (enrichServerEvent u req)).result ∧
    (trackServerEvent env gf mf tf e u req nowMs nowIso).1.meta =
      (sendToMeta env mf e (enrichServerEvent u req) nowMs).result ∧
    (trackServerEvent env gf mf tf e u req nowMs nowIso).1.tiktok =
      (sendToTikTok env tf e (enrichServerEvent u req) nowIso).result :=
  ⟨rfl, rfl, rfl, rfl, rfl, rfl, rfl, rfl, rfl, rfl⟩

/-- C5: the event-name translation table: `EVENT_NAME_MAPPING` carries the
three fixed rows, the server adapters' `eventNameMap` agrees with its
meta/tiktok columns, the GA4 payload passes the canonical name through
(matching the identity ga4 column), and the meta/tiktok payloads carry the
`eventNameMap` lookup of the canonical name. -/
theorem event_name_translation_table :
    (EVENT_NAME_MAPPING "add_to_cart" =
      some { ga4 := "add_to_cart", meta := "AddToCart",
             tiktok := "AddToCart" }) ∧
    (EVENT_NAME_MAPPING "begin_checkout" =
      some { ga4 := "begin_checkout", meta := "InitiateCheckout",
             tiktok := "InitiateCheckout" }) ∧
    (EVENT_NAME_MAPPING "purchase" =
      some { ga4 := "purchase", meta := "Purchase", tiktok := "Purchase" }) ∧
    (eventNameMap "add_to_cart" = some "AddToCart") ∧
    (eventNameMap "begin_checkout" = some "InitiateCheckout") ∧
    (eventNameMap "purchase" = some "Purchase") ∧
    (∀ e u, (ga4Payload e u).name = e.event_name) ∧
    (∀ e u nowMs, (metaPayloadCjs e u nowMs).event_name =
      eventNameMap e.event_name) ∧
    (∀ pc e u nowIso, (tiktokPayloadCjs pc e u nowIso).event =
      eventNameMap e.event_name) :=
  ⟨by decide, by decide, by decide, by decide, by decide, by decide,
   fun _ _ => rfl, fun _ _ _ => rfl, fun _ _ _ _ => rfl⟩

/-- C7: in every destination payload of both server variants, the
email/phone-derived fields equal `hashPII` of the raw values — the Meta
`user_data.em`/`ph` always, and the TikTok `context.user` exactly when email
or phone is truthy, then with hashed `email`/`phone_number`; and every
`hashPII` output is a fixed 64-character digest string, so no raw value of
any other length can appear in those fields. -/
theorem payload_pii_hashed (e : CanonicalEvent) (u : UserContext) (env : Env)
    (nowMs : Nat) (pc nowIso : String) :
    ((metaPayloadCjs e u nowMs).user_data.em = hashPII u.email) ∧
    ((metaPayloadCjs e u nowMs).user_data.ph = hashPII u.phone) ∧
    ((metaPayloadJs env e u nowMs).user_data.em = hashPII u.email) ∧
    ((metaPayloadJs env e u nowMs).user_data.ph = hashPII u.phone) ∧
    ((tiktokPayloadCjs pc e u nowIso).context.user =
      (if !jsFalsy u.email || !jsFalsy u.phone then
        some { email := hashPII u.email, phone_number := hashPII u.phone,
               external_id := u.user_id }
      else none)) ∧
    ((tiktokPayloadJs pc e u nowIso).context.user =
      (if !jsFalsy u.email || !jsFalsy u.phone then
        some { email := hashPII u.email, phone_number := hashPII u.phone,
               external_id := u.user_id }
      else none)) ∧
    (∀ s hs, hashPII (some s) = some hs → hs.length = 64) := by
  refine ⟨rfl, rfl, rfl, rfl, rfl, rfl, ?_⟩
  intro s hs h
  by_cases he : s = ""
  · subst he; simp [hashPII] at h
  · have hv : hashPII (some s) =
        some (sha256Hex (utf8Encode (jsTrim (jsToLower s.data)))) := by
      simp [hashPII, he]
    rw [hv] at h
    cases h
    exact sha256Hex_length _

/-- C9 counterexample: an `/api/track` request with a caller-supplied
`user_agent` keeps that value through ingress enrichment even though the
transport layer observed a different user agent — `user_agent` is not
overwritten there (only `ip_address` is). -/
theorem ingress_ua_not_overwritten :
    (enrichTrack { sampleUser with user_agent := some "SpoofedUA" }
        sampleReq).user_agent = some "SpoofedUA" ∧
    sampleReq.userAgentHeader = some "RealUA" ∧
    (some "SpoofedUA" : Option String) ≠ some "RealUA" ∧
    (enrichTrack { sampleUser with user_agent := some "SpoofedUA" }
        sampleReq).ip_address = some "203.0.113.7" := by
  refine ⟨rfl, rfl, by decide, rfl⟩

/-- C9 amended: the `/api/track` ingress (all three server variants) 
overwrites only `user.ip_address` with the server-observed transport value and
leaves every other field — `user_agent` included — exactly as the caller
supplied it; the server-route helper `trackServerEvent` (`src/server.cjs`)
overwrites both `ip_address` and `user_agent` and leaves the remaining fields
unchanged. -/
theorem ingress_enrichment_fields (user : UserContext) (req : ReqInfo) :
    ((enrichTrack user req).ip_address = some (serverIp req) ∧
     (enrichTrack user req).user_agent = user.user_agent ∧
     (enrichTrack user req).client_id = user.client_id ∧
     (enrichTrack user req).user_id = user.user_id ∧
     (enrichTrack user req).email = user.email ∧
     (enrichTrack user req).phone = user.phone ∧
     (enrichTrack user req).fbc = user.fbc ∧
     (enrichTrack user req).fbp = user.fbp) ∧
    ((enrichServerEvent user req).ip_address = some (serverIp req) ∧
     (enrichServerEvent user req).user_agent =
       some (jsOrD req.userAgentHeader "Unknown") ∧
     (enrichServerEvent user req).client_id = user.client_id ∧
     (enrichServerEvent user req).user_id = user.user_id ∧
     (enrichServerEvent user req).email = user.email ∧
     (enrichServerEvent user req).phone = user.phone ∧
     (enrichServerEvent user req).fbc = user.fbc ∧
     (enrichServerEvent user req).fbp = user.fbp) :=
  ⟨⟨rfl, rfl, rfl, rfl, rfl, rfl, rfl, rfl⟩,
   ⟨rfl, rfl, rfl, rfl, rfl, rfl, rfl, rfl⟩⟩

/-- C3: an adapter with either required credential missing (falsy) returns the
missing-credentials failure immediately — zero outbound HTTP calls, nothing
sent — and a `trackServerEvent` dispatch with all three destinations missing
credentials yields three `success:false` missing-credential entries and zero
outbound HTTP calls in total. -/
theorem missing_credentials_no_network :
    (∀ env f e u,
      (jsFalsy env.gaMeasurementId || jsFalsy env.gaApiSecret) = true →
      sendToGA4 env f e u =
        { result := { success := false,
                      error := some "Missing GA4 credentials" },
          calls := 0, sent := none }) ∧
    (∀ env f e u nowMs,
      (jsFalsy env.metaPixelId || jsFalsy env.metaAccessToken) = true →
      sendToMeta env f e u nowMs =
        { result := { success := false,
                      error := some "Missing Meta credentials" },
          calls := 0, sent := none }) ∧
    (∀ env f e u nowIso,
      (jsFalsy env.tiktokPixelId || jsFalsy env.tiktokAccessToken) = true →
      sendToTikTok env f e u nowIso =
        { result := { success := false,
                      error := some "Missing TikTok credentials" },
          calls := 0, sent := none }) ∧
    (∀ env gf mf tf e u req nowMs nowIso,
      (jsFalsy env.gaMeasurementId || jsFalsy env.gaApiSecret) = true →
      (jsFalsy env.metaPixelId || jsFalsy env.metaAccessToken) = true →
      (jsFalsy env.tiktokPixelId || jsFalsy env.tiktokAccessToken) = true →
      trackServerEvent env gf mf tf e u req nowMs nowIso =
        ({ event_id := e.event_id,
           ga4 := { success := false,
                    error := some "Missing GA4 credentials" },
           meta := { success := false,
                     error := some "Missing Meta credentials" },
           tiktok := { success := false,
                       error := some "Missing TikTok credentials" } }, 0)) := by
  refine ⟨?_, ?_, ?_, ?_⟩
  · intro env f e u h
    simp [sendToGA4, h]
  · intro env f e u nowMs h
    simp [sendToMeta, h]
  · intro env f e u nowIso h
    simp [sendToTikTok, h]
  · intro env gf mf tf e u req nowMs nowIso h1 h2 h3
    simp [trackServerEvent, sendToGA4, sendToMeta, sendToTikTok, h1, h2, h3,
      settleEntry]

/-- C3 witness: the empty environment has every credential falsy; at concrete
inputs the GA4 adapter and the full `trackServerEvent` dispatch return the
missing-credential failures with zero outbound calls. -/
theorem missing_credentials_no_network_witness :
    ((jsFalsy ({} : Env).gaMeasurementId ||
        jsFalsy ({} : Env).gaApiSecret) = true) ∧
    sendToGA4 {} (.fail "net down") sampleEvent sampleUser =
      { result := { success := false, error := some "Missing GA4 credentials" },
        calls := 0, sent := none } ∧
    trackServerEvent {} (.fail "net down") (.fail "net down")
        (.fail "net down") sampleEvent sampleUser sampleReq 0
        "2025-01-01T00:00:00.000Z" =
      ({ event_id := "e1",
         ga4 := { success := false, error := some "Missing GA4 credentials" },
         meta := { success := false, error := some "Missing Meta credentials" },
         tiktok := { success := false,
                     error := some "Missing TikTok credentials" } }, 0) :=
  ⟨by decide,
   missing_credentials_no_network.1 {} _ _ _ (by decide),
   by
    rw [missing_credentials_no_network.2.2.2 {} (.fail "net down")
      (.fail "net down") (.fail "net down") sampleEvent sampleUser sampleReq 0
      "2025-01-01T00:00:00.000Z" (by decide) (by decide) (by decide)]
    rfl⟩

/-- C4: the exact per-provider success signal: GA4 reports success iff the
response status is exactly 204; Meta reports success iff the body parsed as
JSON and the status is 2xx, whatever the body content; TikTok reports success
iff the status is 2xx and the parsed body's `code` equals 0 — so a 2xx TikTok
response whose `code` is non-zero is reported as failure. -/
theorem adapter_success_signals (env : Env) (e : CanonicalEvent)
    (u : UserContext) (nowMs : Nat) (nowIso : String) :
    (∀ f, (sendToGA4 env f e u).result.success = true ↔
      ((jsFalsy env.gaMeasurementId || jsFalsy env.gaApiSecret) = false ∧
        ∃ text, f = .resp 204 text)) ∧
    (∀ f, (sendToMeta env f e u nowMs).result.success = true ↔
      ((jsFalsy env.metaPixelId || jsFalsy env.metaAccessToken) = false ∧
        ∃ status body, f = .resp status (.ok body) ∧
          200 ≤ status ∧ status ≤ 299)) ∧
    (∀ f, (sendToTikTok env f e u nowIso).result.success = true ↔
      ((jsFalsy env.tiktokPixelId || jsFalsy env.tiktokAccessToken) = false ∧
        ∃ status body, f = .resp status (.ok body) ∧
          200 ≤ status ∧ status ≤ 299 ∧ body.code = some 0)) := by
  refine ⟨?_, ?_, ?_⟩
  · intro f
    cases hc : (jsFalsy env.gaMeasurementId || jsFalsy env.gaApiSecret) with
    | true => simp [sendToGA4, hc]
    | false =>
      cases f with
      | fail msg => simp [sendToGA4, hc]
      | resp status text =>
        by_cases hs : status = 204
        · subst hs; simp [sendToGA4, hc]
        · simp [sendToGA4, hc, hs]
  · intro f
    cases hc : (jsFalsy env.metaPixelId || jsFalsy env.metaAccessToken) with
    | true => simp [sendToMeta, hc]
    | false =>
      cases f with
      | fail msg => simp [sendToMeta, hc]
      | resp status body =>
        cases body with
        | err msg => simp [sendToMeta, hc]
        | ok b =>
          by_cases hok : respOk status = true
          · have hok2 : 200 ≤ status ∧ status ≤ 299 := by
              simpa [respOk, Bool.and_eq_true, decide_eq_true_eq] using hok
            simp [sendToMeta, hc, hok, hok2.1, hok2.2]
          · have hok2 : ¬(200 ≤ status ∧ status ≤ 299) := by
              intro hx
              simp [respOk, hx.1, hx.2] at hok
            simp only [Bool.not_eq_true] at hok
            simp [sendToMeta, hc, hok]
            intro h200
            by_contra hno
            push_neg at hno
            exact hok2 ⟨h200, hno⟩
  · intro f
    cases hc :
        (jsFalsy env.tiktokPixelId || jsFalsy env.tiktokAccessToken) with
    | true => simp [sendToTikTok, hc]
    | false =>
      cases f with
      | fail msg => simp [sendToTikTok, hc]
      | resp status body =>
        cases body with
        | err msg => simp [sendToTikTok, hc]
        | ok b =>
          by_cases hcond : (respOk status && b.code == some 0) = true
          · have hok2 : (200 ≤ status ∧ status ≤ 299) ∧ b.code = some 0 := by
              have h1 := (Bool.and_eq_true _ _).mp hcond
              refine ⟨?_, ?_⟩
              · simpa [respOk, Bool.and_eq_true, decide_eq_true_eq]
                  using h1.1
              · simpa using h1.2
            have hok : respOk status = true := by
              simp [respOk, hok2.1.1, hok2.1.2]
            simp [sendToTikTok, hc, hok, hok2.1.1, hok2.1.2, hok2.2]
            exact ⟨status, b, ⟨rfl, rfl⟩, hok2.1.1, hok2.1.2, hok2.2⟩
          · simp only [Bool.not_eq_true] at hcond
            simp [sendToTikTok, hc, hcond]
            intro h200 h299 hcode
            have : (respOk status && b.code == some 0) = true := by
              simp [respOk, h200, h299, hcode]
            rw [this] at hcond
            exact absurd hcond (by decide)

/-- C2: consent gating in the `src/server.js` dispatch: a destination whose
required purpose is not granted (`analytics_storage` for GA4, `ad_storage`
for Meta and TikTok) is never invoked — zero outbound HTTP calls — and its
entry is `success:false` carrying the consent-specific `reason` field,
distinct from the credential-failure result (which uses `error`); a
destination whose required purpose is granted is invoked, its entry being
exactly its own adapter's result. -/
theorem consent_gating (consent : Option ConsentState) (env : Env)
    (gf : GaFetch) (mf : JsonFetch MetaBody) (tf : JsonFetch TikTokBody)
    (e : CanonicalEvent) (u : UserContext) (nowMs : Nat) (nowIso : String) :
    (hasAnalyticsConsent consent = false →
      (dispatchJs consent env gf mf tf e u nowMs nowIso).1 =
        { invoked := false, calls := 0,
          entry := { success := false,
                     reason := some "No analytics consent" } } ∧
      ({ success := false, reason := some "No analytics consent" }
          : DispatchResult) ≠
        { success := false, error := some "Missing GA4 credentials" }) ∧
    (hasAnalyticsConsent consent = true →
      (dispatchJs consent env gf mf tf e u nowMs nowIso).1 =
        { invoked := true, calls := (sendToGA4Js env gf e u).calls,
          entry := (sendToGA4Js env gf e u).result }) ∧
    (hasAdConsent consent = false →
      (dispatchJs consent env gf mf tf e u nowMs nowIso).2.1 =
        { invoked := false, calls := 0,
          entry := { success := false, reason := some "No ad consent" } } ∧
      (dispatchJs consent env gf mf tf e u nowMs nowIso).2.2 =
        { invoked := false, calls := 0,
          entry := { success := false, reason := some "No ad consent" } }) ∧
    (hasAdConsent consent = true →
      (dispatchJs consent env gf mf tf e u nowMs nowIso).2.1 =
        { invoked := true, calls := (sendToMetaJs env mf e u nowMs).calls,
          entry := (sendToMetaJs env mf e u nowMs).result } ∧
      (dispatchJs consent env gf mf tf e u nowMs nowIso).2.2 =
        { invoked := true, calls := (sendToTikTokJs env tf e u nowIso).calls,
          entry := (sendToTikTokJs env tf e u nowIso).result }) := by
  refine ⟨fun h => ⟨?_, by decide⟩, fun h => ?_, fun h => ⟨?_, ?_⟩,
    fun h => ⟨?_, ?_⟩⟩ <;>
  simp [dispatchJs, h, settleEntry]

/-- C2 witness: with advertising granted and analytics denied over an empty
credential environment, the GA4 destination is skipped with the consent
reason and zero calls, while the Meta destination is invoked and fails on
credentials (with zero network calls, since the credential gate precedes the
fetch). -/
theorem consent_gating_witness :
    (hasAnalyticsConsent sampleConsent = false ∧
      hasAdConsent sampleConsent = true) ∧
    (dispatchJs sampleConsent {} (.fail "net down") (.fail "net down")
        (.fail "net down") sampleEvent sampleUser 0 "t").1 =
      { invoked := false, calls := 0,
        entry := { success := false,
                   reason := some "No analytics consent" } } ∧
    (dispatchJs sampleConsent {} (.fail "net down") (.fail "net down")
        (.fail "net down") sampleEvent sampleUser 0 "t").2.1 =
      { invoked := true, calls := 0,
        entry := { success := false,
                   error := some "Missing Meta credentials" } } :=
  ⟨⟨by decide, by decide⟩,
   ((consent_gating sampleConsent {} (.fail "net down") (.fail "net down")
       (.fail "net down") sampleEvent sampleUser 0 "t").1 (by decide)).1,
   by
    rw [((consent_gating sampleConsent {} (.fail "net down") (.fail "net down")
       (.fail "net down") sampleEvent sampleUser 0 "t").2.2.2 (by decide)).1]
    rfl⟩

/-- C8 counterexample: for the unsupported event name `page_view`, with
credentials present and the provider answering 200, normalization is not a
hard error: the `src/server.js` Meta adapter builds a payload whose
event-name field is the raw input passed through and reports success, and the
`src/server.cjs` Meta adapter builds a payload whose event-name field is
`undefined` — neither throws nor returns an error result. -/
theorem unknown_event_name_not_rejected :
    eventNameMap "page_view" = none ∧
    (metaPayloadJs envFull pageViewEvent sampleUser 0).event_name =
      some "page_view" ∧
    (sendToMetaJs envFull (.resp 200 (.ok {})) pageViewEvent sampleUser
        0).result.success = true ∧
    (metaPayloadCjs pageViewEvent sampleUser 0).event_name = none ∧
    (sendToMeta envFull (.resp 200 (.ok {})) pageViewEvent sampleUser
        0).result.success = true := by
  refine ⟨by decide, by decide, by decide, by decide, by decide⟩

/-- C8 amended: an event name outside the three supported values is not a
hard error anywhere in normalization: the `src/server.js` adapters fall back
to the raw name in the destination payload, the `src/server.cjs` adapters
leave the event-name field `undefined`, and with credentials present the
adapter still proceeds to its one network call — no throw, no error
result. -/
theorem unknown_event_name_passthrough (e : CanonicalEvent) (u : UserContext)
    (env : Env) (nowMs : Nat) (pc nowIso : String) (mf : JsonFetch MetaBody)
    (hn : eventNameMap e.event_name = none)
    (hc : (jsFalsy env.metaPixelId || jsFalsy env.metaAccessToken) = false) :
    (metaPayloadJs env e u nowMs).event_name = some e.event_name ∧
    (tiktokPayloadJs pc e u nowIso).event = some e.event_name ∧
    (metaPayloadCjs e u nowMs).event_name = none ∧
    (tiktokPayloadCjs pc e u nowIso).event = none ∧
    (sendToMetaJs env mf e u nowMs).calls = 1 := by
  refine ⟨?_, ?_, ?_, ?_, ?_⟩
  · simp [metaPayloadJs, hn, jsOrD]
  · simp [tiktokPayloadJs, tiktokPayloadCjs, hn, jsOrD]
  · simp [metaPayloadCjs, hn]
  · simp [tiktokPayloadCjs, hn]
  · cases mf with
    | fail msg => simp [sendToMetaJs, hc]
    | resp status body =>
      cases body with
      | err msg => simp [sendToMetaJs, hc]
      | ok b =>
        by_cases hok : respOk status = true
        · simp [sendToMetaJs, hc, hok]
        · simp [sendToMetaJs, hc, hok]

/-- C8 amended witness: the `page_view` event at concrete inputs: raw name in
the js payload, `undefined` in the cjs payload, one network call with full
credentials. -/
theorem unknown_event_name_passthrough_witness :
    (eventNameMap pageViewEvent.event_name = none ∧
      (jsFalsy envFull.metaPixelId || jsFalsy envFull.metaAccessToken) =
        false) ∧
    (metaPayloadJs envFull pageViewEvent sampleUser 0).event_name =
      some pageViewEvent.event_name ∧
    (metaPayloadCjs pageViewEvent sampleUser 0).event_name = none ∧
    (sendToMetaJs envFull (.fail "net down") pageViewEvent sampleUser
        0).calls = 1 :=
  ⟨⟨by decide, by decide⟩,
   (unknown_event_name_passthrough pageViewEvent sampleUser envFull 0 "pc"
      "t" (.fail "net down") (by decide) (by decide)).1,
   (unknown_event_name_passthrough pageViewEvent sampleUser envFull 0 "pc"
      "t" (.fail "net down") (by decide) (by decide)).2.2.1,
   (unknown_event_name_passthrough pageViewEvent sampleUser envFull 0 "pc"
      "t" (.fail "net down") (by decide) (by decide)).2.2.2.2⟩

/-- C6: `hashPII` returns `undefined` for absent or empty input; every
non-empty input hashes to the 64-character SHA-256 hex digest of the
lower-cased, whitespace-trimmed input; and hashing is deterministic under
normalization equivalence — non-empty inputs with equal lower-cased trimmed
forms hash identically. -/
theorem hashPII_contract :
    hashPII none = none ∧
    hashPII (some "") = none ∧
    (∀ s : String, s ≠ "" →
      hashPII (some s) =
        some (sha256Hex (utf8Encode (jsToLower (jsTrim s.data)))) ∧
      ∀ hs, hashPII (some s) = some hs → hs.length = 64) ∧
    (∀ s1 s2 : String, s1 ≠ "" → s2 ≠ "" →
      jsToLower (jsTrim s1.data) = jsToLower (jsTrim s2.data) →
      hashPII (some s1) = hashPII (some s2)) := by
  have hval : ∀ s : String, s ≠ "" →
      hashPII (some s) =
        some (sha256Hex (utf8Encode (jsToLower (jsTrim s.data)))) := by
    intro s h
    have hv : hashPII (some s) =
        some (sha256Hex (utf8Encode (jsTrim (jsToLower s.data)))) := by
      simp [hashPII, h]
    rw [hv, jsTrim_jsToLower_comm]
  refine ⟨rfl, rfl, fun s h => ⟨hval s h, ?_⟩, fun s1 s2 h1 h2 heq => ?_⟩
  · intro hs hh
    rw [hval s h] at hh
    cases hh
    exact sha256Hex_length _
  · rw [hval s1 h1, hval s2 h2, heq]

/-- C6 witness: two inputs with the same lower-cased trimmed form hash to the
same value, and a concrete non-empty input hashes to a 64-character string. -/
theorem hashPII_contract_witness :
    (" Foo@Example.COM " ≠ "" ∧ "foo@example.com" ≠ "" ∧
      jsToLower (jsTrim " Foo@Example.COM ".data) =
        jsToLower (jsTrim "foo@example.com".data)) ∧
    hashPII (some " Foo@Example.COM ") = hashPII (some "foo@example.com") ∧
    (∀ hs, hashPII (some "foo@example.com") = some hs → hs.length = 64) :=
  ⟨⟨by decide, by decide, by decide⟩,
   hashPII_contract.2.2.2 " Foo@Example.COM " "foo@example.com" (by decide)
     (by decide) (by decide),
   (hashPII_contract.2.2.1 "foo@example.com" (by decide)).2⟩

/-- C10: a whitespace-only string is truthy in JS, so it escapes the
falsiness check (which runs before trimming): `hashPII` returns the hex
digest of the empty string for it, not `undefined`; only absent input
(`undefined`/`null`, modelled as `none`) and the exactly-empty string yield
`undefined`. -/
theorem hashPII_whitespace_only :
    (∀ s : String, s ≠ "" → s.data.all jsIsWhitespace = true →
      hashPII (some s) = some (sha256Hex (utf8Encode "".data))) ∧
    sha256Hex (utf8Encode "".data) =
      "e3b0c44298fc1c149afbf4c8996fb92427ae41e4649b934ca495991b7852b855" ∧
    hashPII none = none ∧
    hashPII (some "") = none ∧
    (∀ s : String, s ≠ "" → hashPII (some s) ≠ none) := by
  refine ⟨?_, by decide, rfl, rfl, ?_⟩
  · intro s h hws
    have hpf : (jsIsWhitespace ∘ Char.toLower) = jsIsWhitespace := by
      funext c; exact jsIsWhitespace_toLower c
    have hlw : (jsToLower s.data).all jsIsWhitespace = true := by
      rw [jsToLower, List.all_map, hpf]; exact hws
    have htrim : jsTrim (jsToLower s.data) = [] :=
      jsTrim_all_whitespace _ hlw
    have hv : hashPII (some s) =
        some (sha256Hex (utf8Encode (jsTrim (jsToLower s.data)))) := by
      simp [hashPII, h]
    rw [hv, htrim]
  · intro s h
    simp [hashPII, h]

/-- C10 witness: the three-space string hashes to the well-known SHA-256
digest of zero bytes, not `undefined`. -/
theorem hashPII_whitespace_only_witness :
    ("   " ≠ "" ∧ "   ".data.all jsIsWhitespace = true) ∧
    hashPII (some "   ") =
      some "e3b0c44298fc1c149afbf4c8996fb92427ae41e4649b934ca495991b7852b855" := by
  refine ⟨⟨by decide, by decide⟩, ?_⟩
  rw [hashPII_whitespace_only.1 "   " (by decide) (by decide),
    hashPII_whitespace_only.2.1]

/-- C7 witness: at concrete inputs the Meta payload's `em` field is the hash
of the sample email, and a concrete non-empty input's hash is a 64-character
string. -/
theorem payload_pii_hashed_witness :
    ((metaPayloadCjs sampleEvent sampleUser 0).user_data.em =
      hashPII sampleUser.email) ∧
    (hashPII (some "a") =
      some (sha256Hex (utf8Encode (jsTrim (jsToLower "a".data))))) ∧
    (sha256Hex (utf8Encode (jsTrim (jsToLower "a".data)))).length = 64 :=
  ⟨(payload_pii_hashed sampleEvent sampleUser {} 0 "pc" "t").1,
   by decide,
   (payload_pii_hashed sampleEvent sampleUser {} 0 "pc" "t").2.2.2.2.2.2 "a"
     (sha256Hex (utf8Encode (jsTrim (jsToLower "a".data)))) (by decide)⟩

/-- C4 witness: the success signals at concrete responses: GA4 succeeds on
204 and fails on 200; Meta succeeds on a parsed 200 body; TikTok succeeds on
200 with `code: 0` and fails on 200 with `code: 40001`. -/
theorem adapter_success_signals_witness :
    (sendToGA4 envFull (.resp 204 "") sampleEvent
        sampleUser).result.success = true ∧
    (sendToGA4 envFull (.resp 200 "ok") sampleEvent
        sampleUser).result.success = false ∧
    (sendToMeta envFull (.resp 200 (.ok {})) sampleEvent sampleUser
        0).result.success = true ∧
    (sendToTikTok envFull (.resp 200 (.ok { code := some 0 })) sampleEvent
        sampleUser "t").result.success = true ∧
    (sendToTikTok envFull (.resp 200 (.ok { code := some 40001 }))
        sampleEvent sampleUser "t").result.success = false :=
  ⟨((adapter_success_signals envFull sampleEvent sampleUser 0 "t").1
      (.resp 204 "")).mpr ⟨by decide, "", rfl⟩,
   by decide,
   ((adapter_success_signals envFull sampleEvent sampleUser 0 "t").2.1
      (.resp 200 (.ok {}))).mpr
     ⟨by decide, 200, {}, rfl, by decide, by decide⟩,
   ((adapter_success_signals envFull sampleEvent sampleUser 0 "t").2.2
      (.resp 200 (.ok { code := some 0 }))).mpr
     ⟨by decide, 200, { code := some 0 }, rfl, by decide, by decide,
      by decide⟩,
   by decide⟩
